import Mathlib

/-!
Verification of the MonteCarloJiraConnector extraction pipeline.

Shallow embedding of the two connector variants:
* `data_extarction.py` (class `JiraToDynamoDB`): safe field extraction,
  paginated fetch (`extract_jira_issues`), flow metrics
  (`calculate_flow_metrics`), forecast generation
  (`generate_forecast_items`), DynamoDB sink (`save_to_dynamodb`,
  `convert_floats_to_decimal`).
* `connectorv3.py` (class `JiraETLConnector`): capped paginated fetch
  (`get_issues`), transition derivation (`extract_transitions`),
  relational sink (`insert_issues_into_db`).

Modelling conventions:
* Python floats and `decimal.Decimal` values are modelled as exact
  rationals (`ℚ`); `round(x, 2)` is modelled as round-half-even at two
  decimal places on the exact rational value.
* Timestamps are modelled as already-parsed instants (`Int`, seconds);
  the source sorts ISO-8601 strings whose lexicographic order agrees
  with chronological order for the uniform format the upstream emits.
* Network calls are modelled as pure functions supplied as parameters
  (an upstream is a function from offset and page size to a page).
-/

namespace MCJira

/-- Round-half-even of a rational to an integer, the tie-breaking rule of
Python's builtin `round`. -/
def roundHalfEven (q : ℚ) : ℤ :=
  let f : ℤ := ⌊q⌋
  let r : ℚ := q - f
  if r < 1/2 then f
  else if 1/2 < r then f + 1
  else if f % 2 = 0 then f else f + 1

/-- Model of Python `round(x, 2)`: round-half-even at two decimal places. -/
def round2 (q : ℚ) : ℚ := (roundHalfEven (q * 100) : ℚ) / 100

/-- A scalar value stored in a raw Jira `fields` record, as seen by the safe
field extractor: Python `None`, a number (`int`/`float`), a string, or a
nested object of which the extractor only ever reads one string-valued key
(e.g. `status.name`). -/
inductive PVal where
  | none
  | num (q : ℚ)
  | str (s : String)
  | obj (kvs : List (String × String))
deriving DecidableEq, Repr

/-- Discriminator for the Python test `value is not None`. -/
def PVal.isNone : PVal → Bool
  | PVal.none => true
  | _ => false

/-- A raw `fields` record is a string-keyed dictionary. -/
abbrev Fields : Type := List (String × PVal)

/-- Model of `fields.get(field_id)`: a missing key and a stored `None` both
read back as `None`. -/
def getField (fields : Fields) (fid : String) : PVal :=
  match fields.find? (fun p => p.1 = fid) with
  | some p => p.2
  | Option.none => PVal.none

/-- The ordered candidate list `story_point_fields` of
`_safe_get_story_points` (src/data_extarction.py:317). -/
def storyPointFields : List String :=
  ["customfield_10016", "customfield_10002", "customfield_10004"]

/-- Loop body of `_safe_get_story_points`: for each candidate field id, a
`None` value moves on to the next candidate; a numeric value returns
`float(value)`; any other non-`None` value hits the
`float(value) if isinstance(value, (int, float)) else None` expression,
which returns `None` from the function (the `except ... continue` branch is
unreachable because the guarded expression never raises). -/
def safeGetStoryPointsAux (fields : Fields) : List String → Option ℚ
  | [] => Option.none
  | fid :: rest =>
    match getField fields fid with
    | PVal.none => safeGetStoryPointsAux fields rest
    | PVal.num q => some q
    | _ => Option.none

/-- `_safe_get_story_points` (src/data_extarction.py:315-326). -/
def safeGetStoryPoints (fields : Fields) : Option ℚ :=
  safeGetStoryPointsAux fields storyPointFields

/-- The candidate values, in order, that `_safe_get_story_points` would read:
used to state what the extractor does in terms of the first non-`None`
candidate. -/
def firstPresentCandidate (fields : Fields) : Option PVal :=
  (storyPointFields.map (getField fields)).find? (fun v => !v.isNone)

/-- Model of `_safe_get_nested_field(fields, field_name, sub_field, default)`
(src/data_extarction.py:308-313): a `None` (or absent) field yields the
default, otherwise the sub-key is looked up in the nested object with the
same default. Raw values that are neither `None` nor objects do not occur
for the nested fields this is called on and also fall back to the default. -/
def safeGetNestedField (fields : Fields) (fname sub : String)
    (default : Option String) : Option String :=
  match getField fields fname with
  | PVal.obj kvs =>
    match kvs.find? (fun p => p.1 = sub) with
    | some p => some p.2
    | Option.none => default
  | _ => default

/-- Model of `fields.get(k)` for a plain string field (`created`,
`updated`): present strings are kept, anything else reads as `None`. -/
def getOptStr (fields : Fields) (k : String) : Option String :=
  match getField fields k with
  | PVal.str s => some s
  | _ => Option.none

/-- Model of `fields.get('summary', '') or ''`. -/
def getStrOrEmpty (fields : Fields) (k : String) : String :=
  match getField fields k with
  | PVal.str s => s
  | _ => ""

/-- One raw issue object from a search response: its `key` and its `fields`
dictionary. -/
structure RawIssue where
  key : String
  fields : Fields
deriving DecidableEq, Repr

/-- The normalized `issue_data` record built per raw issue inside
`extract_jira_issues` (src/data_extarction.py:200-216), restricted to the
fields the verified claims read (identity, status, creation timestamp and
story points; the remaining attributes are verbatim text/list copies of the
same safe-getter shape). -/
structure NormIssue where
  issue_id : String
  summary : String
  status : Option String
  created : Option String
  story_points : Option ℚ
deriving DecidableEq, Repr

/-- Per-record normalization done in the body of `extract_jira_issues`. -/
def normalizeIssue (r : RawIssue) : NormIssue :=
  { issue_id := r.key
    summary := getStrOrEmpty r.fields "summary"
    status := safeGetNestedField r.fields "status" "name" (some "Unknown")
    created := getOptStr r.fields "created"
    story_points := safeGetStoryPoints r.fields }

/-- One page of a search response: the raw issues of the page and the
upstream-reported total count (`result.get('total', 0)`). -/
structure FetchResult where
  issues : List RawIssue
  total : Nat
deriving Repr

/-- An upstream that honours the start offset and page size over a fixed
finite database of issues, and reports the true total. -/
def honestFetch (db : List RawIssue) (start size : Nat) : FetchResult :=
  FetchResult.mk ((db.drop start).take size) db.length

/-- An upstream behaving like the `/rest/api/3/search/jql` endpoint as
driven by `search_issues_new_endpoint`: since the request payload carries no
start offset, every request returns the first page regardless of the
`start` argument. -/
def newEndpointUpstream (db : List RawIssue) (_start size : Nat) : FetchResult :=
  FetchResult.mk (db.take size) db.length

/-- The `while True` pagination loop of `extract_jira_issues`
(src/data_extarction.py:187-229), with the network call abstracted as
`fetch`. Fuel makes the recursion structural; the third component of the
result is `true` exactly when the loop reached one of its own `break`
statements (an empty batch, a short page, or `start_at >= total`) rather
than running out of fuel. The second component counts page requests. -/
def extractLoop (fetch : Nat → Nat → FetchResult) (maxResults : Nat) :
    Nat → Nat → List NormIssue → Nat → List NormIssue × Nat × Bool
  | 0, _start, acc, reqs => (acc, reqs, false)
  | fuel + 1, start, acc, reqs =>
    if (fetch start maxResults).issues.isEmpty then (acc, reqs + 1, true)
    else if (fetch start maxResults).issues.length < maxResults ∨
        (fetch start maxResults).total ≤ start + maxResults then
      (acc ++ (fetch start maxResults).issues.map normalizeIssue, reqs + 1, true)
    else
      extractLoop fetch maxResults fuel (start + maxResults)
        (acc ++ (fetch start maxResults).issues.map normalizeIssue) (reqs + 1)

/-- `extract_jira_issues` starts at offset 0 with the hard-coded page size
`max_results = 50` (src/data_extarction.py:184-185). -/
def extractJiraIssues (fetch : Nat → Nat → FetchResult) (fuel : Nat) :
    List NormIssue × Nat × Bool :=
  extractLoop fetch 50 fuel 0 [] 0

/-- A concrete 73-record upstream database. -/
def db73 : List RawIssue :=
  (List.range 73).map (fun n => RawIssue.mk (toString n) [])

/-- The `while True` pagination loop of `JiraETLConnector.get_issues`
(src/connectorv3.py:70-104), with the client call abstracted as `fetch`.
The page size actually requested is
`min(max_results, max_total_issues - len(all_issues))`; the offset still
advances by `max_results`. The second component counts page requests and
the third is `true` exactly when the loop reached one of its own stopping
conditions. -/
def getIssuesLoop {α : Type} (fetch : Nat → Nat → List α)
    (maxResults maxTotal : Nat) :
    Nat → Nat → List α → Nat → List α × Nat × Bool
  | 0, _start, acc, reqs => (acc, reqs, false)
  | fuel + 1, start, acc, reqs =>
    if maxTotal ≤ acc.length then (acc, reqs, true)
    else if (fetch start (min maxResults (maxTotal - acc.length))).isEmpty then
      (acc, reqs + 1, true)
    else if (fetch start (min maxResults (maxTotal - acc.length))).length < maxResults then
      (acc ++ fetch start (min maxResults (maxTotal - acc.length)), reqs + 1, true)
    else
      getIssuesLoop fetch maxResults maxTotal fuel (start + maxResults)
        (acc ++ fetch start (min maxResults (maxTotal - acc.length))) (reqs + 1)

/-- `get_issues` starts with `all_issues = []` and `start_at = 0`. -/
def getIssues {α : Type} (fetch : Nat → Nat → List α)
    (maxResults maxTotal fuel : Nat) : List α × Nat × Bool :=
  getIssuesLoop fetch maxResults maxTotal fuel 0 [] 0

/-- A concrete 120-record upstream for the capped-fetch scenario, served
with honest offset/size semantics. -/
def serve120 (start size : Nat) : List Nat :=
  ((List.range 120).drop start).take size

/-- One status-change entry collected by `extract_transitions`
(src/connectorv3.py:122-128) before sorting: issue key, source and
destination status, event instant and author. -/
structure StatusChange where
  issue_key : String
  from_status : String
  to_status : String
  transition_date : Int
  author : String
deriving DecidableEq, Repr

/-- One derived transition record as appended by `extract_transitions`
(src/connectorv3.py:145-149): the collected entry plus its dwell time in
hours (`None` for the chronologically last entry of the issue). -/
structure TransitionRec where
  issue_key : String
  from_status : String
  to_status : String
  transition_date : Int
  author : String
  time_in_status_hours : Option ℚ
deriving DecidableEq, Repr

/-- Build the output record of `extract_transitions` for one entry and its
computed dwell time. -/
def mkTransitionRec (c : StatusChange) (d : Option ℚ) : TransitionRec :=
  { issue_key := c.issue_key
    from_status := c.from_status
    to_status := c.to_status
    transition_date := c.transition_date
    author := c.author
    time_in_status_hours := d }

/-- The sort key of `status_changes.sort(key=lambda x: x['transition_date'])`. -/
def byDate (a b : StatusChange) : Prop :=
  a.transition_date ≤ b.transition_date

instance : DecidableRel byDate :=
  fun a b => inferInstanceAs (Decidable (a.transition_date ≤ b.transition_date))

instance : IsTotal StatusChange byDate :=
  ⟨fun a b => Int.le_total a.transition_date b.transition_date⟩

instance : IsTrans StatusChange byDate :=
  ⟨fun _ _ _ h1 h2 => le_trans h1 h2⟩

/-- The duration pass of `extract_transitions` (src/connectorv3.py:135-149)
over one issue's already-sorted entries: each entry's dwell time is the
delta (in hours, rounded to two decimals) to the next entry, and the final
entry gets `None`. -/
def withDurations : List StatusChange → List TransitionRec
  | [] => []
  | [c] => [mkTransitionRec c Option.none]
  | c :: nxt :: rest =>
    mkTransitionRec c
        (some (round2 (((nxt.transition_date - c.transition_date : ℤ) : ℚ) / 3600)))
      :: withDurations (nxt :: rest)

/-- Per-issue core of `extract_transitions`: sort the collected status
changes by event timestamp, then compute dwell durations against the next
entry in the sorted sequence. -/
def processIssueChanges (changes : List StatusChange) : List TransitionRec :=
  withDurations (List.insertionSort byDate changes)

/-- One field-change item inside a changelog history entry
(`item.field`, `item.fromString`, `item.toString`). -/
structure HistoryItem where
  field : String
  fromString : String
  toString : String
deriving DecidableEq, Repr

/-- One changelog history entry: creation instant, author display name
(`None` when absent) and its items. -/
structure History where
  created : Int
  author : Option String
  items : List HistoryItem
deriving DecidableEq, Repr

/-- An issue as consumed by `extract_transitions`: its key and its
changelog histories (`None` models an issue without a changelog
attribute). -/
structure JIssue where
  key : String
  changelog : Option (List History)
deriving DecidableEq, Repr

/-- The collection loops of `extract_transitions` (src/connectorv3.py:119-128)
for one issue: keep exactly the items whose changed field is `'status'`,
defaulting the author to `'Unknown'`. -/
def collectStatusChanges (issue : JIssue) : List StatusChange :=
  match issue.changelog with
  | Option.none => []
  | some histories =>
    histories.flatMap (fun h =>
      (h.items.filter (fun it => it.field = "status")).map (fun it =>
        { issue_key := issue.key
          from_status := it.fromString
          to_status := it.toString
          transition_date := h.created
          author := h.author.getD "Unknown" }))

/-- `extract_transitions` (src/connectorv3.py:108-152) over all issues:
per-issue collection, sort and duration computation, appended into one
list. -/
def extractTransitions (issues : List JIssue) : List TransitionRec :=
  issues.flatMap (fun i => processIssueChanges (collectStatusChanges i))

/-- One transition record of the `JiraToDynamoDB` pipeline as consumed by
`calculate_flow_metrics`; the timestamp is the parsed instant (seconds),
with `None` modelling a string `datetime.fromisoformat` rejects. -/
structure TransitionIn where
  issue_id : String
  from_status : String
  to_status : String
  transition_timestamp : Option Int
deriving DecidableEq, Repr

/-- The terminal status set of `calculate_flow_metrics`
(src/data_extarction.py:364,372). -/
def doneSet : List String := ["Done", "Closed", "Resolved"]

/-- The in-progress status set of `calculate_flow_metrics`
(src/data_extarction.py:377). -/
def inProgSet : List String := ["In Progress", "In Development"]

/-- Python dict assignment `m[k] = v`: overwrite in place when the key
exists, append otherwise. -/
def setAssoc {β : Type} (m : List (String × β)) (k : String) (v : β) :
    List (String × β) :=
  if m.any (fun p => p.1 = k) then
    m.map (fun p => if p.1 = k then (k, v) else p)
  else m ++ [(k, v)]

/-- The cycle-time pass of `calculate_flow_metrics`
(src/data_extarction.py:370-387): for every transition whose destination is
terminal, find the first transition of the whole input list with the same
issue id and an in-progress destination (`next(...)` over `transitions` in
list order, with no timestamp constraint), and record the whole-day
difference (`timedelta.days`, i.e. floor) keyed by issue id, the last
completion winning. A missing start or an unparsable timestamp skips the
entry. -/
def cycleTimes (transitions : List TransitionIn) : List (String × Int) :=
  transitions.foldl
    (fun acc t =>
      if t.to_status ∈ doneSet then
        match transitions.find?
            (fun s => decide (s.issue_id = t.issue_id ∧ s.to_status ∈ inProgSet)) with
        | some s =>
          match s.transition_timestamp, t.transition_timestamp with
          | some st, some en => setAssoc acc t.issue_id (Int.fdiv (en - st) 86400)
          | _, _ => acc
        | Option.none => acc
      else acc)
    []

/-- The per-day accumulator initialized at src/data_extarction.py:352-357. -/
structure DailyData where
  issues_created : Nat
  issues_completed : Nat
  total_story_points : ℚ
  completed_story_points : ℚ
deriving DecidableEq, Repr

/-- The zero-initialised accumulator for a new creation date. -/
def DailyData.zero : DailyData :=
  DailyData.mk 0 0 0 0

/-- Python truthiness of the optional story-point float:
`if issue['story_points']:` is false for `None` and for `0.0`. -/
def truthy : Option ℚ → Bool
  | Option.none => false
  | some q => decide (q ≠ 0)

/-- The daily grouping loop of `calculate_flow_metrics`
(src/data_extarction.py:346-367): issues without a truthy `created` value
are skipped, the creation date is the first 10 characters of the timestamp,
and counts/story points are accumulated per date in insertion order. -/
def buildDaily (issues : List NormIssue) : List (String × DailyData) :=
  issues.foldl
    (fun m issue =>
      match issue.created with
      | Option.none => m
      | some c =>
        if c = "" then m
        else
          let d := c.take 10
          let cur := ((m.find? (fun p => p.1 = d)).map Prod.snd).getD DailyData.zero
          let cur1 := { cur with issues_created := cur.issues_created + 1 }
          let cur2 :=
            if truthy issue.story_points then
              { cur1 with total_story_points :=
                  cur1.total_story_points + (issue.story_points.getD 0) }
            else cur1
          let cur3 :=
            if (issue.status.getD "") ∈ doneSet then
              let c2 := { cur2 with issues_completed := cur2.issues_completed + 1 }
              if truthy issue.story_points then
                { c2 with completed_story_points :=
                    c2.completed_story_points + (issue.story_points.getD 0) }
              else c2
            else cur2
          setAssoc m d cur3)
    []

/-- One flow-metric record (src/data_extarction.py:393-403); `Decimal`
attributes are modelled as exact rationals. -/
structure MetricRec where
  team_id : String
  date : String
  issues_created : ℚ
  issues_completed : ℚ
  total_story_points : ℚ
  completed_story_points : ℚ
  avg_cycle_time : ℚ
  throughput : ℚ
deriving DecidableEq, Repr

/-- The global average used for `avg_cycle_time`
(src/data_extarction.py:391): the mean of all per-issue cycle times of the
whole extraction batch, and 0 when there are none. -/
def globalAvgCycleTime (transitions : List TransitionIn) : ℚ :=
  if (cycleTimes transitions).isEmpty then 0
  else ((cycleTimes transitions).map (fun p => (p.2 : ℚ))).sum /
    (cycleTimes transitions).length

/-- `calculate_flow_metrics` (src/data_extarction.py:337-407): one record
per creation date, in insertion order, each computing the (identical)
global average cycle time inline, rounded to two decimals. -/
def calculateFlowMetrics (projectKey : String) (issues : List NormIssue)
    (transitions : List TransitionIn) : List MetricRec :=
  (buildDaily issues).map (fun p =>
    { team_id := projectKey
      date := p.1
      issues_created := (p.2.issues_created : ℚ)
      issues_completed := (p.2.issues_completed : ℚ)
      total_story_points := p.2.total_story_points
      completed_story_points := p.2.completed_story_points
      avg_cycle_time := round2 (globalAvgCycleTime transitions)
      throughput := (p.2.issues_completed : ℚ) })

/-- One forecast record (src/data_extarction.py:431-440); the forecast date
is modelled as a day index `now + i`. -/
structure ForecastItem where
  forecast_id : String
  team_id : String
  forecast_date : Nat
  predicted_throughput : ℚ
  predicted_cycle_time : ℚ
  confidence_level : ℚ
  forecast_type : String
deriving DecidableEq, Repr

/-- The mean throughput over all metric records
(src/data_extarction.py:417-418); rational division by a zero length yields
0, matching the guarded `if metrics else 0`. -/
def meanThroughput (metrics : List MetricRec) : ℚ :=
  (metrics.map MetricRec.throughput).sum / (metrics.length : ℚ)

/-- The mean `avg_cycle_time` over all metric records
(src/data_extarction.py:421-422). -/
def meanCycleTime (metrics : List MetricRec) : ℚ :=
  (metrics.map MetricRec.avg_cycle_time).sum / (metrics.length : ℚ)

/-- `generate_forecast_items` (src/data_extarction.py:409-444): empty input
returns an empty list before any average is computed; otherwise one record
per day offset `i` in `range(1, 31)`, each carrying the same rounded flat
averages and the constant confidence `Decimal('0.70')`. -/
def generateForecastItems (projectKey : String) (now : Nat)
    (metrics : List MetricRec) : List ForecastItem :=
  if metrics.isEmpty then []
  else
    (List.range 30).map (fun j =>
      { forecast_id := projectKey ++ "_" ++ toString (now + (j + 1))
        team_id := projectKey
        forecast_date := now + (j + 1)
        predicted_throughput := round2 (meanThroughput metrics)
        predicted_cycle_time := round2 (meanCycleTime metrics)
        confidence_level := 7/10
        forecast_type := "throughput_based" })

/-- A Python value reaching the DynamoDB sink, as traversed by
`convert_floats_to_decimal` (src/data_extarction.py:465-474). A `float` is
identified with the exact rational value denoted by its shortest decimal
representation (`str(x)`), which is exactly the value `Decimal(str(x))`
yields; a `decimal` is an exact decimal value. -/
inductive PyObj where
  | dict (kvs : List (String × PyObj))
  | list (xs : List PyObj)
  | float (q : ℚ)
  | decimal (q : ℚ)
  | str (s : String)
  | int (n : ℤ)
deriving Repr

mutual

/-- `convert_floats_to_decimal` (src/data_extarction.py:465-474): recurse
through dicts and lists, convert each float to `Decimal(str(obj))`, leave
everything else unchanged. -/
def convertFloatsToDecimal : PyObj → PyObj
  | PyObj.dict kvs => PyObj.dict (convertKVs kvs)
  | PyObj.list xs => PyObj.list (convertEach xs)
  | PyObj.float q => PyObj.decimal q
  | PyObj.decimal q => PyObj.decimal q
  | PyObj.str s => PyObj.str s
  | PyObj.int n => PyObj.int n

/-- Dictionary branch of `convert_floats_to_decimal`: convert every value. -/
def convertKVs : List (String × PyObj) → List (String × PyObj)
  | [] => []
  | (k, v) :: rest => (k, convertFloatsToDecimal v) :: convertKVs rest

/-- List branch of `convert_floats_to_decimal`: convert every element. -/
def convertEach : List PyObj → List PyObj
  | [] => []
  | v :: rest => convertFloatsToDecimal v :: convertEach rest

end

mutual

/-- No `float` constructor occurs anywhere in the value. -/
def noFloats : PyObj → Bool
  | PyObj.dict kvs => noFloatsKVs kvs
  | PyObj.list xs => noFloatsEach xs
  | PyObj.float _ => false
  | PyObj.decimal _ => true
  | PyObj.str _ => true
  | PyObj.int _ => true

/-- `noFloats` over the values of a dictionary. -/
def noFloatsKVs : List (String × PyObj) → Bool
  | [] => true
  | (_, v) :: rest => noFloats v && noFloatsKVs rest

/-- `noFloats` over the elements of a list. -/
def noFloatsEach : List PyObj → Bool
  | [] => true
  | v :: rest => noFloats v && noFloatsEach rest

end

mutual

/-- All numeric leaf values of a Python value, in traversal order. -/
def deepNums : PyObj → List ℚ
  | PyObj.dict kvs => deepNumsKVs kvs
  | PyObj.list xs => deepNumsEach xs
  | PyObj.float q => [q]
  | PyObj.decimal q => [q]
  | PyObj.str _ => []
  | PyObj.int n => [(n : ℚ)]

/-- `deepNums` over the values of a dictionary. -/
def deepNumsKVs : List (String × PyObj) → List ℚ
  | [] => []
  | (_, v) :: rest => deepNums v ++ deepNumsKVs rest

/-- `deepNums` over the elements of a list. -/
def deepNumsEach : List PyObj → List ℚ
  | [] => []
  | v :: rest => deepNums v ++ deepNumsEach rest

end

/-- The exact rational value of the IEEE-754 binary64 evaluation of
`0.1 + 0.2` as Python prints and `Decimal(str(...))` reads it:
`str(0.1 + 0.2)` is the shortest-repr string `'0.30000000000000004'`. -/
def floatSumTenthFifth : ℚ := 30000000000000004 / 100000000000000000

/-- The per-item write loop of `save_to_dynamodb`
(src/data_extarction.py:446-463): each item is converted and written on its
own inside a `try`/`except` that only logs; `store` tells whether the
sink accepts a converted item. The result is the sequence of items actually
written. -/
def saveToDynamoDB (store : PyObj → Bool) (items : List PyObj) : List PyObj :=
  items.foldl
    (fun written item =>
      if store (convertFloatsToDecimal item) then
        written ++ [convertFloatsToDecimal item]
      else written)
    []

/-- One row of the relational `issues_jira` upsert handled by
`insert_issues_into_db` (src/connectorv3.py:162-199), restricted to
representative columns; the row is keyed by `issue_key`. -/
structure PgRow where
  issue_key : String
  summary : String
  description : String
  status : Option String
deriving DecidableEq, Repr

/-- The `ON CONFLICT (issue_key) DO UPDATE` upsert of one row into the
table state. -/
def upsertRow (db : List (String × PgRow)) (r : PgRow) : List (String × PgRow) :=
  setAssoc db r.issue_key r

/-- The uncommitted execution of the insert loop of `insert_issues_into_db`:
rows are upserted one by one into the working state; the first row on which
the statement raises (`fails`) aborts the whole loop with `none`. -/
def insertRowsLoop (fails : PgRow → Bool) :
    List (String × PgRow) → List PgRow → Option (List (String × PgRow))
  | db, [] => some db
  | db, r :: rest =>
    if fails r then Option.none else insertRowsLoop fails (upsertRow db r) rest

/-- `insert_issues_into_db` (src/connectorv3.py:155-209): the whole row loop
runs inside a single `try`; on success the work is committed, while any
exception triggers `self.db.rollback()`, restoring the table state of the
last commit (taken right after table creation, before any row of the
batch). -/
def insertIssuesIntoDb (fails : PgRow → Bool) (db0 : List (String × PgRow))
    (rows : List PgRow) : List (String × PgRow) :=
  match insertRowsLoop fails db0 rows with
  | some db => db
  | Option.none => db0

/-- The failure model used in the counterexample batches: the statement
raises exactly on the row keyed `'BAD'` (e.g. a value overflowing a
`VARCHAR` column). -/
def failsBad (r : PgRow) : Bool := r.issue_key = "BAD"

/-- A good row. -/
def rowG1 : PgRow := PgRow.mk "G1" "first" "" (some "Done")

/-- The failing row. -/
def rowBad : PgRow := PgRow.mk "BAD" "boom" "" (some "Done")

/-- Another good row, queued after the failing one. -/
def rowG2 : PgRow := PgRow.mk "G2" "second" "" (some "Done")

/-- The request payload dictionary literally built by
`search_issues_new_endpoint` (src/data_extarction.py:113-130): it has
exactly the members `jql`, `maxResults` and `fields` - no start-offset
member at all. -/
structure NewSearchPayload where
  jql : String
  maxResults : Nat
  fields : List String
deriving DecidableEq, Repr

/-- The field list of the new-endpoint payload
(src/data_extarction.py:116-129). -/
def searchFieldList : List String :=
  ["summary", "description", "status", "assignee", "reporter", "priority",
   "issuetype", "created", "updated", "resolution", "labels", "components"]

/-- `search_issues_new_endpoint(jql, start_at, max_results)` builds its
payload without ever reading `start_at`. -/
def newEndpointPayload (jql : String) (_startAt maxResults : Nat) :
    NewSearchPayload :=
  NewSearchPayload.mk jql maxResults searchFieldList

/-- The query parameters of `search_issues_fallback`
(src/data_extarction.py:154-163), which do carry `startAt`. -/
structure FallbackParams where
  jql : String
  startAt : Nat
  maxResults : Nat
  fields : String
deriving DecidableEq, Repr

/-- `search_issues_fallback(jql, start_at, max_results)` passes its
start offset through as the `startAt` query parameter. -/
def fallbackParams (jql : String) (startAt maxResults : Nat) : FallbackParams :=
  FallbackParams.mk jql startAt maxResults
    "summary,description,status,assignee,reporter,priority,issuetype,created,updated,resolution,labels,components,customfield_10016"

/-- Concrete status change at instant 0 (used in witnesses). -/
def scA : StatusChange := StatusChange.mk "T-1" "To Do" "In Progress" 0 "ann"

/-- Concrete status change one hour later. -/
def scB : StatusChange := StatusChange.mk "T-1" "In Progress" "In Review" 3600 "bob"

/-- Concrete status change two hours in. -/
def scC : StatusChange := StatusChange.mk "T-1" "In Review" "Done" 7200 "cat"

/-- A completion transition of issue `A` at day 5 (432000 s). -/
def trDoneDay5 : TransitionIn :=
  TransitionIn.mk "A" "In Progress" "Done" (some 432000)

/-- A start transition of issue `A` recorded at day 10 (864000 s), after
the completion instant. -/
def trStartDay10 : TransitionIn :=
  TransitionIn.mk "A" "To Do" "In Progress" (some 864000)

/-- A start transition of issue `A` at day 0, chronologically before the
completion. -/
def trStartDay0 : TransitionIn :=
  TransitionIn.mk "A" "To Do" "In Progress" (some 0)

/-- A completed issue created on 2024-01-02 (used in witnesses). -/
def exIssueJan : NormIssue :=
  NormIssue.mk "A" "" (some "Done") (some "2024-01-02T00:00:00.000+0000") Option.none

/-- The single metric record produced for `exIssueJan` with no transitions. -/
def exMetricJan : MetricRec :=
  MetricRec.mk "P" "2024-01-02" 1 1 0 0 (round2 (globalAvgCycleTime [])) 1

/-- A concrete metric record with throughput 3 and average cycle time 4
(used in witnesses). -/
def exMetric34 : MetricRec :=
  MetricRec.mk "P" "2024-01-02" 3 3 0 0 4 3

/-- The concrete project key used in witnesses. -/
def pkP : String := "P"

/-- Unfolding lemma for the story-point scan: what
`safeGetStoryPointsAux` returns is determined by the first candidate value
that is not `None`. -/
theorem safeGetStoryPointsAux_eq_find (fields : Fields) :
    ∀ L : List String,
      safeGetStoryPointsAux fields L =
        (match (L.map (getField fields)).find? (fun v => !v.isNone) with
         | some (PVal.num q) => some q
         | _ => Option.none)
  | [] => rfl
  | fid :: rest => by
    cases h : getField fields fid <;>
      simp [safeGetStoryPointsAux, h, PVal.isNone,
        safeGetStoryPointsAux_eq_find fields rest]

/-- C1. Corrected form of the story-point extraction claim: the scan over
`['customfield_10016', 'customfield_10002', 'customfield_10004']` skips
`None` values only. Its result is the first non-`None` candidate value:
that value coerced to float when it is numeric, and `None` (with the scan
short-circuited) when the first non-`None` candidate is non-numeric; `None`
also results when every candidate is `None`. -/
theorem C1_theorem (fields : Fields) :
    safeGetStoryPoints fields =
      (match firstPresentCandidate fields with
       | some (PVal.num q) => some q
       | _ => Option.none) :=
  safeGetStoryPointsAux_eq_find fields storyPointFields

/-- C1 witness: on the claim's own example `[None, None]` (all candidates
absent) the extractor returns `None`, and with a numeric first present
candidate `8` it returns `8.0`. -/
theorem C1_witness :
    safeGetStoryPoints [] = Option.none ∧
      safeGetStoryPoints [("customfield_10002", PVal.num 8)] = some 8 := by
  constructor
  · exact (C1_theorem []).trans (by decide)
  · exact (C1_theorem [("customfield_10002", PVal.num 8)]).trans (by decide)

/-- C1 counterexample: the claim states that for candidate values
`[None, "abc", 5.0]` the extractor returns `5.0`; on the code it returns
`None`, because the non-numeric `"abc"` is the first non-`None` candidate
and the expression `float(value) if isinstance(value, (int, float)) else
None` returns `None` from the function instead of moving on to the next
candidate. -/
theorem C1_counterexample :
    safeGetStoryPoints
        [("customfield_10002", PVal.str "abc"), ("customfield_10004", PVal.num 5)] =
      Option.none ∧
    (Option.none : Option ℚ) ≠ some 5 := by
  constructor
  · rfl
  · decide

/-- Two lists sorted by event date that are permutations of each other are
equal when the event dates are pairwise distinct. -/
theorem sortedByDate_perm_eq :
    ∀ l₁ l₂ : List StatusChange, l₁.Perm l₂ →
      l₁.Sorted byDate → l₂.Sorted byDate →
      (l₁.map StatusChange.transition_date).Nodup → l₁ = l₂ := by
  intro l₁
  induction l₁ with
  | nil =>
    intro l₂ hp _ _ _
    exact hp.nil_eq
  | cons a t ih =>
    intro l₂ hp hs1 hs2 hnd
    cases l₂ with
    | nil => exact absurd hp.eq_nil (by simp)
    | cons b t₂ =>
      have hab : a = b := by
        by_contra hne
        have hat2 : a ∈ t₂ := by
          rcases List.mem_cons.mp (hp.subset (List.mem_cons_self a t)) with h | h
          · exact absurd h hne
          · exact h
        have hbt : b ∈ t := by
          rcases List.mem_cons.mp (hp.symm.subset (List.mem_cons_self b t₂)) with h | h
          · exact absurd h.symm hne
          · exact h
        have h1 : a.transition_date ≤ b.transition_date :=
          (List.sorted_cons.mp hs1).1 b hbt
        have h2 : b.transition_date ≤ a.transition_date :=
          (List.sorted_cons.mp hs2).1 a hat2
        have heq : a.transition_date = b.transition_date := le_antisymm h1 h2
        have hnotin : a.transition_date ∉ t.map StatusChange.transition_date :=
          (List.nodup_cons.mp hnd).1
        exact hnotin (heq ▸ List.mem_map_of_mem StatusChange.transition_date hbt)
      subst hab
      have ht : t = t₂ :=
        ih t₂ hp.cons_inv (List.sorted_cons.mp hs1).2 (List.sorted_cons.mp hs2).2
          (List.nodup_cons.mp hnd).2
      rw [ht]

/-- Sorting by event date is insensitive to the input order whenever the
event dates are pairwise distinct. -/
theorem insertionSort_byDate_perm_invariant (l₁ l₂ : List StatusChange)
    (hp : l₁.Perm l₂) (hnd : (l₁.map StatusChange.transition_date).Nodup) :
    List.insertionSort byDate l₁ = List.insertionSort byDate l₂ := by
  apply sortedByDate_perm_eq
  · exact (List.perm_insertionSort byDate l₁).trans
      (hp.trans (List.perm_insertionSort byDate l₂).symm)
  · exact List.sorted_insertionSort byDate l₁
  · exact List.sorted_insertionSort byDate l₂
  · exact (((List.perm_insertionSort byDate l₁).map
      StatusChange.transition_date).nodup_iff).mpr hnd

/-- C2. For every issue, transition derivation sorts that issue's status
changes by event timestamp ascending and assigns each entry a dwell
duration equal to the delta (in hours, rounded to two decimals) to the next
entry of the sorted sequence, the final entry receiving no duration.
Consequently the output is invariant under permutation of the raw input
whenever the timestamps are distinct, and for three items at instants
`T0 < T1 < T2` the durations are `T1 - T0`, `T2 - T1` and `None`. -/
theorem C2_theorem :
    (∀ l₁ l₂ : List StatusChange, l₁.Perm l₂ →
        (l₁.map StatusChange.transition_date).Nodup →
        processIssueChanges l₁ = processIssueChanges l₂) ∧
    (∀ a b c : StatusChange,
        a.transition_date < b.transition_date →
        b.transition_date < c.transition_date →
        ∀ l : List StatusChange, l.Perm [a, b, c] →
          processIssueChanges l =
            [mkTransitionRec a
              (some (round2
                (((b.transition_date - a.transition_date : ℤ) : ℚ) / 3600))),
             mkTransitionRec b
              (some (round2
                (((c.transition_date - b.transition_date : ℤ) : ℚ) / 3600))),
             mkTransitionRec c Option.none]) := by
  constructor
  · intro l₁ l₂ hp hnd
    unfold processIssueChanges
    rw [insertionSort_byDate_perm_invariant l₁ l₂ hp hnd]
  · intro a b c hab hbc l hl
    have hs : ([a, b, c] : List StatusChange).Sorted byDate := by
      simp [List.sorted_cons, byDate]
      omega
    have hnd3 : (([a, b, c] : List StatusChange).map
        StatusChange.transition_date).Nodup := by
      simp [List.nodup_cons]
      omega
    have hsort : List.insertionSort byDate l = [a, b, c] := by
      apply sortedByDate_perm_eq
      · exact (List.perm_insertionSort byDate l).trans hl
      · exact List.sorted_insertionSort byDate l
      · exact hs
      · exact (((List.perm_insertionSort byDate l).trans hl).map
          StatusChange.transition_date).nodup_iff.mpr hnd3
    unfold processIssueChanges
    rw [hsort]
    rfl

/-- C2 witness: three concrete status changes at instants 0 s, 3600 s and
7200 s, presented in the scrambled order `[B, C, A]`, come out sorted with
dwell times of one hour, one hour, and `None` for the latest entry. -/
theorem C2_witness :
    processIssueChanges [scB, scC, scA] =
      [mkTransitionRec scA (some 1), mkTransitionRec scB (some 1),
       mkTransitionRec scC Option.none] := by
  have h := C2_theorem.2 scA scB scC (by decide) (by decide) [scB, scC, scA]
    (by decide)
  rw [h]
  norm_num [scA, scB, scC, round2, roundHalfEven]

/-- Against an honest upstream holding finitely many records, the
`extract_jira_issues` loop reaches one of its own `break` statements
whenever it is given enough fuel to cover the database. -/
theorem extractLoop_honest_finishes (db : List RawIssue) :
    ∀ fuel start acc reqs, db.length ≤ start + 50 * fuel → 1 ≤ fuel →
      (extractLoop (honestFetch db) 50 fuel start acc reqs).2.2 = true := by
  intro fuel
  induction fuel with
  | zero =>
    intro start acc reqs _ h1
    exact absurd h1 (by omega)
  | succ f ih =>
    intro start acc reqs h _
    simp only [extractLoop]
    by_cases hE : ((honestFetch db) start 50).issues.isEmpty
    · simp [hE]
    · simp only [hE, Bool.false_eq_true, if_false]
      by_cases hC : ((honestFetch db) start 50).issues.length < 50 ∨
          ((honestFetch db) start 50).total ≤ start + 50
      · simp [hC]
      · simp only [hC, if_false]
        push_neg at hC
        have hlen : ((honestFetch db) start 50).total = db.length := rfl
        rw [hlen] at hC
        apply ih
        · omega
        · omega

/-- C3. Paginated fetching terminates against every upstream with finitely
many records once the fuel covers the database (the loop stops on a short
page, an empty page, or when the offset reaches the reported total), and
against the concrete honest upstream of 73 records with page size 50 it
issues exactly 2 page requests and returns exactly the 73 normalized issues
in fetch order. -/
theorem C3_theorem :
    (∀ db : List RawIssue, ∀ fuel : Nat, db.length ≤ 50 * fuel → 1 ≤ fuel →
        (extractJiraIssues (honestFetch db) fuel).2.2 = true) ∧
    (extractJiraIssues (honestFetch db73) 2).1 = db73.map normalizeIssue ∧
    (extractJiraIssues (honestFetch db73) 2).1.length = 73 ∧
    (extractJiraIssues (honestFetch db73) 2).2.1 = 2 ∧
    (extractJiraIssues (honestFetch db73) 2).2.2 = true := by
  refine ⟨?_, ?_, ?_, ?_, ?_⟩
  · intro db fuel h h1
    exact extractLoop_honest_finishes db fuel 0 [] 0 (by omega) h1
  · decide
  · decide
  · decide
  · decide

/-- C3 witness: the general termination statement applied to the concrete
73-record upstream with fuel 2. -/
theorem C3_witness :
    (extractJiraIssues (honestFetch db73) 2).2.2 = true :=
  C3_theorem.1 db73 2 (by decide) (by decide)

/-- The accumulated issue list of the `get_issues` loop never exceeds the
cap, for any upstream that never returns more records than requested. -/
theorem getIssuesLoop_length_le {α : Type} (fetch : Nat → Nat → List α)
    (mr mt : Nat) (hsize : ∀ s k, (fetch s k).length ≤ k) :
    ∀ fuel start acc reqs, acc.length ≤ mt →
      (getIssuesLoop fetch mr mt fuel start acc reqs).1.length ≤ mt := by
  intro fuel
  induction fuel with
  | zero =>
    intro start acc reqs h
    simpa [getIssuesLoop] using h
  | succ f ih =>
    intro start acc reqs h
    simp only [getIssuesLoop]
    by_cases h1 : mt ≤ acc.length
    · simp [h1, h]
    · simp only [h1, if_false]
      by_cases h2 : (fetch start (min mr (mt - acc.length))).isEmpty
      · simp [h2, h]
      · simp only [h2, Bool.false_eq_true, if_false]
        have hb := hsize start (min mr (mt - acc.length))
        by_cases h3 : (fetch start (min mr (mt - acc.length))).length < mr
        · simp only [h3, if_true]
          simp only [List.length_append]
          omega
        · simp only [h3, if_false]
          apply ih
          simp only [List.length_append]
          omega

/-- C8. The paginated fetcher of `get_issues` respects the configured cap:
for every upstream honouring the requested page size the accumulated list
never exceeds `max_total_issues`; and against the concrete honest upstream
of 120 records with `max_total = 40` and page size 50, a single page
request is issued (the request itself asks for only the remaining allowance
of 40), the loop stops there, and exactly the first 40 records are
returned although more exist upstream. -/
theorem C8_theorem :
    (∀ (α : Type) (fetch : Nat → Nat → List α) (mr mt fuel : Nat),
        (∀ s k, (fetch s k).length ≤ k) →
        (getIssues fetch mr mt fuel).1.length ≤ mt) ∧
    (getIssues serve120 50 40 5).1 = (List.range 120).take 40 ∧
    (getIssues serve120 50 40 5).2.1 = 1 ∧
    (getIssues serve120 50 40 5).2.2 = true ∧
    40 < (List.range 120).length := by
  refine ⟨?_, ?_, ?_, ?_, ?_⟩
  · intro α fetch mr mt fuel hsize
    exact getIssuesLoop_length_le fetch mr mt hsize fuel 0 [] 0 (by simp)
  · decide
  · decide
  · decide
  · decide

/-- C8 witness: the cap invariant applied to the concrete 120-record
upstream with cap 40 and page size 50. -/
theorem C8_witness : (getIssues serve120 50 40 5).1.length ≤ 40 :=
  C8_theorem.1 Nat serve120 50 40 5
    (fun s k => List.length_take_le k ((List.range 120).drop s))

/-- C4. Forecast generation returns the empty list on an empty metric set
(before any average is computed, so no division by zero is performed); on a
non-empty metric set it returns exactly 30 records, dated `now + 1` through
`now + 30`, each carrying the identical predicted throughput (the rounded
arithmetic mean of `throughput`), the identical predicted cycle time (the
rounded mean of `avg_cycle_time`), and the constant confidence 0.70. -/
theorem C4_theorem (pk : String) (now : Nat) (ms : List MetricRec) :
    (ms.isEmpty = true → generateForecastItems pk now ms = []) ∧
    (ms.isEmpty = false →
      (generateForecastItems pk now ms).length = 30 ∧
      (generateForecastItems pk now ms).map ForecastItem.forecast_date =
        (List.range 30).map (fun j => now + (j + 1)) ∧
      ∀ f ∈ generateForecastItems pk now ms,
        f.predicted_throughput = round2 (meanThroughput ms) ∧
        f.predicted_cycle_time = round2 (meanCycleTime ms) ∧
        f.confidence_level = 7/10) := by
  constructor
  · intro h
    simp [generateForecastItems, h]
  · intro h
    refine ⟨?_, ?_, ?_⟩
    · simp [generateForecastItems, h]
    · simp [generateForecastItems, h, List.map_map]
    · intro f hf
      simp only [generateForecastItems, h, Bool.false_eq_true, if_false,
        List.mem_map] at hf
      obtain ⟨j, _, rfl⟩ := hf
      exact ⟨rfl, rfl, rfl⟩

/-- C4 witness: the empty metric set yields an empty forecast, and a
singleton metric set yields exactly 30 records. -/
theorem C4_witness :
    generateForecastItems pkP 0 [] = [] ∧
      (generateForecastItems pkP 0 [exMetric34]).length = 30 :=
  ⟨(C4_theorem pkP 0 []).1 rfl, ((C4_theorem pkP 0 [exMetric34]).2 rfl).1⟩

/-- C5. Every metric record emitted by one run of `calculate_flow_metrics`
carries the same `avg_cycle_time`: the rounded arithmetic mean over the
global set of per-issue cycle times of the whole extraction batch (0 when
that set is empty), never an average restricted to the record's own
creation date. -/
theorem C5_theorem (pk : String) (issues : List NormIssue)
    (ts : List TransitionIn) (m : MetricRec)
    (hm : m ∈ calculateFlowMetrics pk issues ts) :
    m.avg_cycle_time = round2 (globalAvgCycleTime ts) := by
  simp only [calculateFlowMetrics, List.mem_map] at hm
  obtain ⟨p, _, rfl⟩ := hm
  rfl

/-- C5 witness: for a single completed issue and no transitions, the single
metric record's average cycle time is the global (empty) average. -/
theorem C5_witness : exMetricJan.avg_cycle_time = round2 (globalAvgCycleTime []) :=
  C5_theorem pkP [exIssueJan] [] exMetricJan
    (by rw [show calculateFlowMetrics pkP [exIssueJan] [] = [exMetricJan] from rfl]
        exact List.mem_singleton.mpr rfl)

/-- C10. The cycle-time start transition used by `calculate_flow_metrics`
is the first transition in input-list order whose destination status is in
the in-progress set, with no requirement that its timestamp precede the
completion: with issue `A` completing at day 5 and its only in-progress
transition recorded at day 10, the recorded cycle time is `-5`; and with an
additional day-0 start placed later in the list, the day-10 start is still
chosen (first in list order), again yielding `-5`, which is negative. -/
theorem C10_theorem :
    cycleTimes [trDoneDay5, trStartDay10] = [("A", -5)] ∧
    cycleTimes [trStartDay10, trDoneDay5, trStartDay0] = [("A", -5)] ∧
    (-5 : ℤ) < 0 := by
  exact ⟨by decide, by decide, by decide⟩

/-- The per-item write loop of `save_to_dynamodb`, started from any
already-written prefix, writes exactly the converted items the sink
accepts, in order. -/
theorem saveLoop_eq_filter (store : PyObj → Bool) :
    ∀ (items : List PyObj) (acc : List PyObj),
      items.foldl
        (fun written item =>
          if store (convertFloatsToDecimal item) then
            written ++ [convertFloatsToDecimal item]
          else written) acc =
        acc ++ (items.map convertFloatsToDecimal).filter store
  | [], acc => by simp
  | it :: rest, acc => by
    simp only [List.foldl, List.map_cons, List.filter_cons]
    by_cases h : store (convertFloatsToDecimal it)
    · simp [h, saveLoop_eq_filter store rest]
    · simp [h, saveLoop_eq_filter store rest]

/-- The uncommitted insert loop of `insert_issues_into_db` raises (returns
`none`) whenever any row of the batch fails, regardless of the table state
it starts from. -/
theorem insertRowsLoop_none (fails : PgRow → Bool) :
    ∀ (rows : List PgRow) (db : List (String × PgRow)),
      (∃ r ∈ rows, fails r = true) → insertRowsLoop fails db rows = Option.none
  | [], db => by simp
  | r :: rest, db => by
    intro h
    simp only [insertRowsLoop]
    by_cases hf : fails r
    · simp [hf]
    · simp only [hf, Bool.false_eq_true, if_false]
      apply insertRowsLoop_none fails rest
      obtain ⟨s, hs, hfs⟩ := h
      rcases List.mem_cons.mp hs with rfl | hmem
      · exact absurd hfs (by simp [hf])
      · exact ⟨s, hmem, hfs⟩

/-- C6, corrected. In the DynamoDB sink (`save_to_dynamodb`) each record is
written inside its own `try`/`except`, so the written sequence is exactly
the converted records the sink accepts: a per-record failure is skipped and
never aborts the batch. In the relational sink (`insert_issues_into_db`),
however, the whole batch runs in one `try` followed by `rollback()` on
failure, so a single failing record reverts every record of the batch. -/
theorem C6_theorem :
    (∀ (store : PyObj → Bool) (items : List PyObj),
        saveToDynamoDB store items =
          (items.map convertFloatsToDecimal).filter store) ∧
    (∀ (fails : PgRow → Bool) (db0 : List (String × PgRow)) (rows : List PgRow),
        (∃ r ∈ rows, fails r = true) → insertIssuesIntoDb fails db0 rows = db0) := by
  constructor
  · intro store items
    exact saveLoop_eq_filter store items []
  · intro fails db0 rows h
    unfold insertIssuesIntoDb
    rw [insertRowsLoop_none fails rows db0 h]

/-- C6 witness: a singleton batch holding only the failing row leaves the
(empty) relational table unchanged. -/
theorem C6_witness : insertIssuesIntoDb failsBad [] [rowBad] = [] :=
  C6_theorem.2 failsBad [] [rowBad] ⟨rowBad, by decide, by decide⟩

/-- C6 counterexample: the claim says a per-record failure never aborts the
batch and already-queued records are not discarded. In
`insert_issues_into_db`, the batch `[G1, BAD, G2]` with the middle record
failing leaves the table empty: the already-queued `G1` is rolled back and
`G2` is never written. -/
theorem C6_counterexample :
    insertIssuesIntoDb failsBad [] [rowG1, rowBad, rowG2] = [] ∧
    "G1" ∉ (insertIssuesIntoDb failsBad [] [rowG1, rowBad, rowG2]).map Prod.fst := by
  exact ⟨by decide, by decide⟩

mutual

/-- After `convert_floats_to_decimal`, no float remains anywhere in the
value. -/
theorem noFloats_convert : ∀ o : PyObj, noFloats (convertFloatsToDecimal o) = true
  | PyObj.dict kvs => by
    simp only [convertFloatsToDecimal, noFloats]
    exact noFloatsKVs_convert kvs
  | PyObj.list xs => by
    simp only [convertFloatsToDecimal, noFloats]
    exact noFloatsEach_convert xs
  | PyObj.float _ => by simp only [convertFloatsToDecimal, noFloats]
  | PyObj.decimal _ => by simp only [convertFloatsToDecimal, noFloats]
  | PyObj.str _ => by simp only [convertFloatsToDecimal, noFloats]
  | PyObj.int _ => by simp only [convertFloatsToDecimal, noFloats]

/-- Dictionary case of `noFloats_convert`. -/
theorem noFloatsKVs_convert :
    ∀ kvs : List (String × PyObj), noFloatsKVs (convertKVs kvs) = true
  | [] => rfl
  | (k, v) :: rest => by
    simp only [convertKVs, noFloatsKVs, Bool.and_eq_true]
    exact ⟨noFloats_convert v, noFloatsKVs_convert rest⟩

/-- List case of `noFloats_convert`. -/
theorem noFloatsEach_convert :
    ∀ xs : List PyObj, noFloatsEach (convertEach xs) = true
  | [] => rfl
  | v :: rest => by
    simp only [convertEach, noFloatsEach, Bool.and_eq_true]
    exact ⟨noFloats_convert v, noFloatsEach_convert rest⟩

end

mutual

/-- `convert_floats_to_decimal` preserves every numeric leaf value exactly
(the float's value being the one denoted by its shortest decimal
representation, which is what `Decimal(str(x))` reads). -/
theorem deepNums_convert :
    ∀ o : PyObj, deepNums (convertFloatsToDecimal o) = deepNums o
  | PyObj.dict kvs => by
    simp only [convertFloatsToDecimal, deepNums]
    exact deepNumsKVs_convert kvs
  | PyObj.list xs => by
    simp only [convertFloatsToDecimal, deepNums]
    exact deepNumsEach_convert xs
  | PyObj.float _ => by simp only [convertFloatsToDecimal, deepNums]
  | PyObj.decimal _ => by simp only [convertFloatsToDecimal, deepNums]
  | PyObj.str _ => by simp only [convertFloatsToDecimal, deepNums]
  | PyObj.int _ => by simp only [convertFloatsToDecimal, deepNums]

/-- Dictionary case of `deepNums_convert`. -/
theorem deepNumsKVs_convert :
    ∀ kvs : List (String × PyObj), deepNumsKVs (convertKVs kvs) = deepNumsKVs kvs
  | [] => rfl
  | (k, v) :: rest => by
    simp only [convertKVs, deepNumsKVs]
    rw [deepNums_convert v, deepNumsKVs_convert rest]

/-- List case of `deepNums_convert`. -/
theorem deepNumsEach_convert :
    ∀ xs : List PyObj, deepNumsEach (convertEach xs) = deepNumsEach xs
  | [] => rfl
  | v :: rest => by
    simp only [convertEach, deepNumsEach]
    rw [deepNums_convert v, deepNumsEach_convert rest]

end

/-- C7, corrected. `convert_floats_to_decimal` recursively replaces every
float by a `Decimal` holding exactly the value of the float's shortest
decimal representation (`Decimal(str(obj))`), leaving no float behind and
preserving every numeric value as printed. It therefore removes no binary
rounding artifact already present in the float itself: the float produced
by `0.1 + 0.2` prints as `0.30000000000000004` and is stored as exactly
that value, not as `0.3`. -/
theorem C7_theorem :
    (∀ o : PyObj, noFloats (convertFloatsToDecimal o) = true ∧
        deepNums (convertFloatsToDecimal o) = deepNums o) ∧
    convertFloatsToDecimal (PyObj.float floatSumTenthFifth) =
      PyObj.decimal floatSumTenthFifth ∧
    floatSumTenthFifth ≠ 3/10 := by
  refine ⟨fun o => ⟨noFloats_convert o, deepNums_convert o⟩, ?_, ?_⟩
  · simp only [convertFloatsToDecimal]
  · norm_num [floatSumTenthFifth]

/-- C7 counterexample: the claim says the float result of `0.1 + 0.2`
reaches the sink as a value exactly equal to `0.3`. The stored numeric
value of a record carrying that float is `0.30000000000000004`, which is
not `3 / 10`. -/
theorem C7_counterexample :
    deepNums (convertFloatsToDecimal
        (PyObj.dict [("cycle", PyObj.float floatSumTenthFifth)])) =
      [floatSumTenthFifth] ∧
    floatSumTenthFifth ≠ 3/10 := by
  constructor
  · simp [convertFloatsToDecimal, convertKVs, deepNums, deepNumsKVs]
  · norm_num [floatSumTenthFifth]

/-- C9. `search_issues_new_endpoint` builds the identical request payload
for every start offset - the payload has no start-offset member at all -
while the fallback endpoint does pass `startAt`; consequently, when the
newer strategy succeeds, the pagination loop of `extract_jira_issues`
accumulates the same records repeatedly: against the 73-record upstream it
returns the first page twice (100 records, the first 50 duplicated) and the
last 23 records are never fetched. -/
theorem C9_theorem :
    (∀ (jql : String) (s1 s2 mr : Nat),
        newEndpointPayload jql s1 mr = newEndpointPayload jql s2 mr) ∧
    (∀ (jql : String) (s mr : Nat), (fallbackParams jql s mr).startAt = s) ∧
    (extractJiraIssues (newEndpointUpstream db73) 3).1 =
      (db73.take 50 ++ db73.take 50).map normalizeIssue ∧
    (extractJiraIssues (newEndpointUpstream db73) 3).2.1 = 2 := by
  refine ⟨fun _ _ _ _ => rfl, fun _ _ _ => rfl, by decide, by decide⟩

end MCJira
